import Mathlib

/-!
Verification of the portfolio repository's 3D scene subsystem.

The definitions below are a shallow embedding of the two scene components:
the `Laptop` scene (shadow blur pipeline, pointer interaction, reduced-motion
handling, cleanup) and the `EarthProject` scene (asynchronous load join,
render-loop scheduling, cutaway click toggle, cleanup).  Mutable refs become
explicit record state, renderer draw calls become an emitted command trace,
and the asynchronous load becomes a trace of completion events.
-/

namespace Laptop

/-- The two offscreen render targets of the shadow pipeline:
`renderTargetA` is `renderTarget` (the shadow map), `renderTargetB` is
`renderTargetBlur` (the blur scratch target). -/
inductive Target
  | renderTargetA
  | renderTargetB
deriving DecidableEq, Repr

/-- Direction of a separable blur pass. -/
inductive BlurDir
  | horizontal
  | vertical
deriving DecidableEq, Repr

/-- A draw call issued to the renderer, as observable at the graphics API.
`blurDraw dir radius uniformValue src dest` records a full-target quad draw
through the blur shader: `radius` is the `amount` argument of `blurShadow`,
`uniformValue` the value written to the shader's `h`/`v` uniform, `src` the
target whose texture is bound to `tDiffuse`, `dest` the active render target.
`none` as a target denotes the default framebuffer. -/
inductive DrawCmd
  | depthOverrideDraw (dest : Option Target)
  | blurDraw (dir : BlurDir) (radius : ℚ) (uniformValue : ℚ)
      (src : Option Target) (dest : Option Target)
  | mainDraw (dest : Option Target)
deriving DecidableEq, Repr

/-- The fixed size of both render targets (`renderTargetSize` in the mount
effect): `new WebGLRenderTarget(renderTargetSize, renderTargetSize)`. -/
def renderTargetSize : ℕ := 512

/-- The mutable renderer/scene state that `renderFrame` touches.  Texture
contents of the two targets are abstracted as write counters; the scene
background is an opaque handle. -/
structure LaptopRenderState where
  activeRenderTarget : Option Target
  overrideMaterialIsDepth : Bool
  background : Option ℤ
  blurPlaneVisible : Bool
  blurPlaneMaterial : Option BlurDir
  hUniform : ℚ
  vUniform : ℚ
  hTDiffuse : Option Target
  vTDiffuse : Option Target
  modelRotationX : ℚ
  modelRotationY : ℚ
  targetAContents : ℕ
  targetBContents : ℕ
deriving DecidableEq, Repr

/-- A render into a target bumps that target's contents counter; a render to
the default framebuffer leaves the offscreen targets untouched. -/
def renderInto (s : LaptopRenderState) : Option Target → LaptopRenderState
  | some Target.renderTargetA => { s with targetAContents := s.targetAContents + 1 }
  | some Target.renderTargetB => { s with targetBContents := s.targetBContents + 1 }
  | none => s

/-- State on mount, after the initialization effect ran: no active render
target, no override material, transparent background, the blur plane created
invisible with its default (non-blur) material, the blur shaders at their
stock uniform defaults (1/512), no rotation applied, empty targets. -/
def laptopInitialState : LaptopRenderState where
  activeRenderTarget := none
  overrideMaterialIsDepth := false
  background := none
  blurPlaneVisible := false
  blurPlaneMaterial := none
  hUniform := 1 / 512
  vUniform := 1 / 512
  hTDiffuse := none
  vTDiffuse := none
  modelRotationX := 0
  modelRotationY := 0
  targetAContents := 0
  targetBContents := 0

/-- Embedding of `blurShadow(amount)`: make the blur plane visible; bind the horizontal
blur material with `tDiffuse = renderTarget.texture` and
`h = amount * (1/256)`, render the plane into `renderTargetBlur`; bind the
vertical blur material with `tDiffuse = renderTargetBlur.texture` and
`v = amount * (1/256)`, render the plane back into `renderTarget`; hide the
blur plane again.  Returns the updated state and the two draw calls. -/
def blurShadow (amount : ℚ) (s : LaptopRenderState) :
    LaptopRenderState × List DrawCmd :=
  let s1 := { s with blurPlaneVisible := true }
  let s2 := { s1 with
    blurPlaneMaterial := some BlurDir.horizontal
    hTDiffuse := some Target.renderTargetA
    hUniform := amount * (1 / 256) }
  let s3 := { s2 with activeRenderTarget := some Target.renderTargetB }
  let s4 := renderInto s3 (some Target.renderTargetB)
  let c1 := DrawCmd.blurDraw BlurDir.horizontal amount (amount * (1 / 256))
    (some Target.renderTargetA) (some Target.renderTargetB)
  let s5 := { s4 with
    blurPlaneMaterial := some BlurDir.vertical
    vTDiffuse := some Target.renderTargetB
    vUniform := amount * (1 / 256) }
  let s6 := { s5 with activeRenderTarget := some Target.renderTargetA }
  let s7 := renderInto s6 (some Target.renderTargetA)
  let c2 := DrawCmd.blurDraw BlurDir.vertical amount (amount * (1 / 256))
    (some Target.renderTargetB) (some Target.renderTargetA)
  let s8 := { s7 with blurPlaneVisible := false }
  (s8, [c1, c2])

/-- Embedding of `renderFrame`: save the background and clear it; set the depth override
material; render the scene from the shadow camera into `renderTarget`; clear
the override; run `blurShadow(5)` then `blurShadow(5 * 0.4)`; reset the
render target to the default framebuffer; restore the background; read the
spring rotations into the model group; render the main camera view. -/
def renderFrame (rx ry : ℚ) (s : LaptopRenderState) :
    LaptopRenderState × List DrawCmd :=
  let blurAmount : ℚ := 5
  let initialBackground := s.background
  let s1 := { s with background := none }
  let s2 := { s1 with overrideMaterialIsDepth := true }
  let s3 := { s2 with activeRenderTarget := some Target.renderTargetA }
  let s4 := renderInto s3 (some Target.renderTargetA)
  let c0 := DrawCmd.depthOverrideDraw (some Target.renderTargetA)
  let s5 := { s4 with overrideMaterialIsDepth := false }
  let p1 := blurShadow blurAmount s5
  let p2 := blurShadow (blurAmount * (4 / 10)) p1.1
  let s6 := { p2.1 with activeRenderTarget := none }
  let s7 := { s6 with background := initialBackground }
  let s8 := { s7 with modelRotationX := rx, modelRotationY := ry }
  let cMain := DrawCmd.mainDraw none
  (s8, c0 :: (p1.2 ++ p2.2 ++ [cMain]))

/-- Whether a draw call is one of the blur passes. -/
def isBlurDraw : DrawCmd → Bool
  | DrawCmd.blurDraw _ _ _ _ _ => true
  | _ => false

end Laptop

namespace Laptop

/-- Property of a draw call: if it is a blur pass, its shader uniform value
equals the blur radius times the fixed texel fraction 1/256 that the code
hard-codes in `blurShadow`. -/
def blurUniformIsTexelFraction : DrawCmd → Prop
  | DrawCmd.blurDraw _ r u _ _ => u = r * (1 / 256)
  | _ => True

/-- Statement of claim C10 at a given pre-state: after `renderFrame` returns,
every piece of renderer/scene configuration other than the model rotation and
the render-target contents is back to (or still at) its pre-call value. -/
def renderFrameChangesOnlyRotationAndTargets
    (s : LaptopRenderState) (rx ry : ℚ) : Prop :=
  let t := (renderFrame rx ry s).1
  t.activeRenderTarget = none ∧
  t.overrideMaterialIsDepth = false ∧
  t.background = s.background ∧
  t.blurPlaneVisible = false ∧
  t.blurPlaneMaterial = s.blurPlaneMaterial ∧
  t.hUniform = s.hUniform ∧
  t.vUniform = s.vUniform ∧
  t.hTDiffuse = s.hTDiffuse ∧
  t.vTDiffuse = s.vTDiffuse

end Laptop

section LaptopPipelineTheorems

open Laptop

/-- C1: every invocation of the Laptop scene's `renderFrame` emits exactly the
fixed draw sequence: the depth-override render into render target A first,
then four blur draws in order — horizontal at radius 5 sampling A into B,
vertical at radius 5 sampling B back into A, then the same
horizontal-then-vertical pair at the second radius `5 * 0.4` (which equals 2)
— followed by the main camera draw; in particular the trace contains exactly
four blur draws per frame. -/
theorem laptop_renderFrame_blur_sequence (s : LaptopRenderState) (rx ry : ℚ) :
    (renderFrame rx ry s).2 =
      [DrawCmd.depthOverrideDraw (some Target.renderTargetA),
       DrawCmd.blurDraw BlurDir.horizontal 5 (5 * (1 / 256))
         (some Target.renderTargetA) (some Target.renderTargetB),
       DrawCmd.blurDraw BlurDir.vertical 5 (5 * (1 / 256))
         (some Target.renderTargetB) (some Target.renderTargetA),
       DrawCmd.blurDraw BlurDir.horizontal (5 * (4 / 10)) (5 * (4 / 10) * (1 / 256))
         (some Target.renderTargetA) (some Target.renderTargetB),
       DrawCmd.blurDraw BlurDir.vertical (5 * (4 / 10)) (5 * (4 / 10) * (1 / 256))
         (some Target.renderTargetB) (some Target.renderTargetA),
       DrawCmd.mainDraw none] ∧
    ((renderFrame rx ry s).2.filter isBlurDraw).length = 4 ∧
    ((5 : ℚ) * (4 / 10)) = 2 :=
  ⟨rfl, rfl, by norm_num⟩

/-- C2 counterexample: in the frame rendered from the initial mount state,
the horizontal radius-5 blur pass carries the uniform value `5 * (1/256)`,
which is not `5 * (1/renderTargetSize)`: the render targets are 512×512 but
the texel fraction the code uses is the fixed constant 1/256. -/
theorem laptop_blur_uniform_counterexample :
    (Laptop.renderFrame 0 0 Laptop.laptopInitialState).2[1]? =
      some (DrawCmd.blurDraw BlurDir.horizontal 5 (5 * (1 / 256))
        (some Target.renderTargetA) (some Target.renderTargetB)) ∧
    Laptop.renderTargetSize = 512 ∧
    5 * ((1 : ℚ) / 256) ≠ 5 * (1 / (Laptop.renderTargetSize : ℚ)) := by
  refine ⟨rfl, rfl, ?_⟩
  norm_num [Laptop.renderTargetSize]

/-- C2 amended: for every blur pass of the shadow pipeline, the shader blur
uniform (`h` for horizontal, `v` for vertical) equals the blur radius times
the fixed constant 1/256, while the render-target size itself is the fixed
512 for the pipeline's lifetime. -/
theorem laptop_blur_uniform_amended (s : LaptopRenderState) (rx ry : ℚ)
    (c : DrawCmd) (hc : c ∈ (renderFrame rx ry s).2) :
    blurUniformIsTexelFraction c ∧ renderTargetSize = 512 := by
  refine ⟨?_, rfl⟩
  rw [show (renderFrame rx ry s).2 =
    [DrawCmd.depthOverrideDraw (some Target.renderTargetA),
     DrawCmd.blurDraw BlurDir.horizontal 5 (5 * (1 / 256))
       (some Target.renderTargetA) (some Target.renderTargetB),
     DrawCmd.blurDraw BlurDir.vertical 5 (5 * (1 / 256))
       (some Target.renderTargetB) (some Target.renderTargetA),
     DrawCmd.blurDraw BlurDir.horizontal (5 * (4 / 10)) (5 * (4 / 10) * (1 / 256))
       (some Target.renderTargetA) (some Target.renderTargetB),
     DrawCmd.blurDraw BlurDir.vertical (5 * (4 / 10)) (5 * (4 / 10) * (1 / 256))
       (some Target.renderTargetB) (some Target.renderTargetA),
     DrawCmd.mainDraw none] from rfl] at hc
  fin_cases hc <;> simp [blurUniformIsTexelFraction]

/-- Witness for the amended C2 theorem at the first horizontal blur draw of a
concrete frame. -/
theorem laptop_blur_uniform_amended_witness :
    blurUniformIsTexelFraction
      (DrawCmd.blurDraw BlurDir.horizontal 5 (5 * (1 / 256))
        (some Target.renderTargetA) (some Target.renderTargetB)) ∧
    renderTargetSize = 512 :=
  laptop_blur_uniform_amended laptopInitialState 0 0 _
    (by rw [show (renderFrame 0 0 laptopInitialState).2 =
      [DrawCmd.depthOverrideDraw (some Target.renderTargetA),
       DrawCmd.blurDraw BlurDir.horizontal 5 (5 * (1 / 256))
         (some Target.renderTargetA) (some Target.renderTargetB),
       DrawCmd.blurDraw BlurDir.vertical 5 (5 * (1 / 256))
         (some Target.renderTargetB) (some Target.renderTargetA),
       DrawCmd.blurDraw BlurDir.horizontal (5 * (4 / 10)) (5 * (4 / 10) * (1 / 256))
         (some Target.renderTargetA) (some Target.renderTargetB),
       DrawCmd.blurDraw BlurDir.vertical (5 * (4 / 10)) (5 * (4 / 10) * (1 / 256))
         (some Target.renderTargetB) (some Target.renderTargetA),
       DrawCmd.mainDraw none] from rfl]
        exact List.mem_cons_of_mem _ (List.mem_cons_self _ _))

/-- C10 counterexample: from the initial mount state, `renderFrame` is not a
pure rotation-and-target-contents update: it leaves the blur plane bound to
the vertical blur material and the blur uniforms at their last-pass values
instead of restoring them. -/
theorem laptop_renderFrame_state_counterexample :
    ¬ renderFrameChangesOnlyRotationAndTargets laptopInitialState 0 0 := by
  intro h
  have hmat := h.2.2.2.2.1
  simp [renderFrame, blurShadow, renderInto, laptopInitialState] at hmat

/-- C10 amended: when `renderFrame` returns, the active render target is the
default framebuffer, the override material is cleared, the background equals
its value on entry, and the blur plane is invisible; the model rotation holds
the spring values; target A received exactly three writes (the depth render
plus the two vertical passes) and target B exactly two (the two horizontal
passes); but the
blur plane's bound material and the blur shaders' uniforms are not restored —
they are left at the fixed values of the final radius-2 pass (vertical blur
material, `tDiffuse` bindings A and B, uniforms `2 * (1/256)`), so they are
unchanged only from the second frame onwards. -/
theorem laptop_renderFrame_restores_amended (s : LaptopRenderState) (rx ry : ℚ) :
    (renderFrame rx ry s).1.activeRenderTarget = none ∧
    (renderFrame rx ry s).1.overrideMaterialIsDepth = false ∧
    (renderFrame rx ry s).1.background = s.background ∧
    (renderFrame rx ry s).1.blurPlaneVisible = false ∧
    (renderFrame rx ry s).1.blurPlaneMaterial = some BlurDir.vertical ∧
    (renderFrame rx ry s).1.hUniform = 5 * (4 / 10) * (1 / 256) ∧
    (renderFrame rx ry s).1.vUniform = 5 * (4 / 10) * (1 / 256) ∧
    (renderFrame rx ry s).1.hTDiffuse = some Target.renderTargetA ∧
    (renderFrame rx ry s).1.vTDiffuse = some Target.renderTargetB ∧
    (renderFrame rx ry s).1.modelRotationX = rx ∧
    (renderFrame rx ry s).1.modelRotationY = ry ∧
    (renderFrame rx ry s).1.targetAContents = s.targetAContents + 3 ∧
    (renderFrame rx ry s).1.targetBContents = s.targetBContents + 2 := by
  refine ⟨rfl, rfl, rfl, rfl, rfl, rfl, rfl, rfl, rfl, rfl, rfl, ?_, ?_⟩ <;>
    simp [renderFrame, blurShadow, renderInto]

end LaptopPipelineTheorems

/-- One step of the teardown work performed in the scenes' cleanup functions.
`clearMountedFlag` is `mounted.current = false`, `cancelFrameStep` is
`cancelAnimationFrame(animationFrame.current)`, the two dispose steps are
`renderTarget.dispose()` and `renderTargetBlur.dispose()`, and the
unsubscribe steps detach the spring change listeners. -/
inductive TeardownStep
  | clearMountedFlag
  | cancelFrameStep
  | disposeRenderTargetStep
  | disposeRenderTargetBlurStep
  | removeLightsStep
  | cleanSceneStep
  | cleanRendererStep
  | unsubscribeRotationX
  | unsubscribeRotationY
deriving DecidableEq, Repr

/-- Cleanup of the Earth scene's mount effect, in source order: clear the
mounted flag, cancel the pending animation frame, remove the lights, clean
the scene graph, clean the renderer. -/
def earthCleanupTrace : List TeardownStep :=
  [TeardownStep.clearMountedFlag,
   TeardownStep.cancelFrameStep,
   TeardownStep.removeLightsStep,
   TeardownStep.cleanSceneStep,
   TeardownStep.cleanRendererStep]

/-- Cleanup of the Laptop scene's mount effect, in source order: dispose the
two render targets, remove the lights, clean the scene graph, clean the
renderer, then unsubscribe the two spring rotation listeners. -/
def laptopCleanupTrace : List TeardownStep :=
  [TeardownStep.disposeRenderTargetStep,
   TeardownStep.disposeRenderTargetBlurStep,
   TeardownStep.removeLightsStep,
   TeardownStep.cleanSceneStep,
   TeardownStep.cleanRendererStep,
   TeardownStep.unsubscribeRotationX,
   TeardownStep.unsubscribeRotationY]

/-- Rank of a teardown step in the order claimed by the spec: frame
cancellation, then lights, then the scene graph, then render targets, and
the renderer last.  Steps the claimed order does not mention rank `none`. -/
def claimedReleaseRank : TeardownStep → Option ℕ
  | TeardownStep.cancelFrameStep => some 0
  | TeardownStep.removeLightsStep => some 1
  | TeardownStep.cleanSceneStep => some 2
  | TeardownStep.disposeRenderTargetStep => some 3
  | TeardownStep.disposeRenderTargetBlurStep => some 3
  | TeardownStep.cleanRendererStep => some 4
  | _ => none

/-- A cleanup trace follows the release order stated by the spec when the
ranks of its steps are nondecreasing. -/
def respectsClaimedReleaseOrder (tr : List TeardownStep) : Prop :=
  List.Chain' (· ≤ ·) (tr.filterMap claimedReleaseRank)

/-- C5 counterexample: the Laptop scene's cleanup does not follow the claimed
release order — it disposes both render targets before removing the lights
and cleaning the scene graph. -/
theorem laptop_cleanup_order_counterexample :
    laptopCleanupTrace.filterMap claimedReleaseRank = [3, 3, 1, 2, 4] ∧
    ¬ respectsClaimedReleaseOrder laptopCleanupTrace := by
  refine ⟨rfl, ?_⟩
  intro h
  simp [respectsClaimedReleaseOrder, laptopCleanupTrace, claimedReleaseRank,
    List.chain'_cons] at h

/-- C5 amended: the Earth scene's cleanup runs clear-mounted-flag,
cancel-animation-frame, remove lights, clean scene graph, clean renderer, in
that order, which respects the claimed release order; the Laptop scene's
cleanup instead disposes its two render targets first, then removes lights,
cleans the scene graph, cleans the renderer, and finally unsubscribes the two
spring listeners — it has no animation-frame cancellation step and its
render-target disposal precedes, rather than follows, the scene-graph
disposal. -/
theorem cleanup_traces_amended :
    earthCleanupTrace =
      [TeardownStep.clearMountedFlag, TeardownStep.cancelFrameStep,
       TeardownStep.removeLightsStep, TeardownStep.cleanSceneStep,
       TeardownStep.cleanRendererStep] ∧
    laptopCleanupTrace =
      [TeardownStep.disposeRenderTargetStep, TeardownStep.disposeRenderTargetBlurStep,
       TeardownStep.removeLightsStep, TeardownStep.cleanSceneStep,
       TeardownStep.cleanRendererStep, TeardownStep.unsubscribeRotationX,
       TeardownStep.unsubscribeRotationY] ∧
    respectsClaimedReleaseOrder earthCleanupTrace ∧
    laptopCleanupTrace.count TeardownStep.cancelFrameStep = 0 := by
  refine ⟨rfl, rfl, ?_, rfl⟩
  simp [respectsClaimedReleaseOrder, earthCleanupTrace, claimedReleaseRank]

namespace Laptop

/-- The `throttle` helper from `utils.js`, specialised to its repeated-call
behaviour: given the throttle window, the `lastTime` state and the timestamps
of successive calls (`new Date()` at each call), return the timestamps at
which the wrapped function actually executes.  A call executes exactly when
`now - lastTime >= timeFrame`, and then updates `lastTime` to `now`. -/
def throttleFires (timeFrame : ℤ) (lastTime : ℤ) : List ℤ → List ℤ
  | [] => []
  | now :: rest =>
      if timeFrame ≤ now - lastTime then now :: throttleFires timeFrame now rest
      else throttleFires timeFrame lastTime rest

/-- The throttle window the Laptop scene passes to `throttle` (100ms). -/
def throttleInterval : ℤ := 100

/-- The body of `onMouseMove`: the pointer offset from the viewport center is
normalized by the viewport extent and halved; the `x` offset drives the
`rotationY` target and the `y` offset drives the `rotationX` target.  Returns
`(rotationX target, rotationY target)`. -/
def onMouseMoveTargets (clientX clientY innerWidth innerHeight : ℚ) : ℚ × ℚ :=
  let px := (clientX - innerWidth / 2) / innerWidth
  let py := (clientY - innerHeight / 2) / innerHeight
  (py / 2, px / 2)

theorem throttleFires_sep (tf : ℤ) :
    ∀ (events : List ℤ) (lastTime : ℤ),
      List.Chain' (fun a b => tf ≤ b - a) (throttleFires tf lastTime events) ∧
      (∀ x, (throttleFires tf lastTime events).head? = some x → tf ≤ x - lastTime)
  | [], _ => by simp [throttleFires]
  | now :: rest, lastTime => by
      by_cases h : tf ≤ now - lastTime
      · have ih := throttleFires_sep tf rest now
        rw [throttleFires, if_pos h]
        refine ⟨?_, ?_⟩
        · rw [List.chain'_cons']
          exact ⟨fun y hy => ih.2 y hy, ih.1⟩
        · intro x hx
          simp only [List.head?_cons, Option.some.injEq] at hx
          omega
      · have ih := throttleFires_sep tf rest lastTime
        rw [throttleFires, if_neg h]
        exact ih

end Laptop

section LaptopInputTheorems

open Laptop

/-- C8: the `onMouseMove` handler sets the `rotationY` target to the
normalized horizontal pointer offset from the viewport center divided by two
and the `rotationX` target to the normalized vertical offset divided by two,
and the handler is wrapped in `throttle(..., 100)`, so any two executions of
the handler are at least 100ms (the configured interval) apart. -/
theorem laptop_pointer_input_c8 (clientX clientY innerWidth innerHeight : ℚ)
    (events : List ℤ) :
    (onMouseMoveTargets clientX clientY innerWidth innerHeight).2 =
      ((clientX - innerWidth / 2) / innerWidth) / 2 ∧
    (onMouseMoveTargets clientX clientY innerWidth innerHeight).1 =
      ((clientY - innerHeight / 2) / innerHeight) / 2 ∧
    throttleInterval = 100 ∧
    List.Chain' (fun a b => a + throttleInterval ≤ b)
      (throttleFires throttleInterval 0 events) := by
  refine ⟨rfl, rfl, rfl, ?_⟩
  have h := (throttleFires_sep throttleInterval events 0).1
  exact h.imp fun hab => by omega

end LaptopInputTheorems

namespace Laptop

/-- Conversion of `MathUtils.degToRad`, with angles tracked in units of π
radians so the embedding stays within ℚ: `degToRad d` represents the radian
value `(d / 180) · π`.  Scaling by the fixed nonzero constant π preserves
every equality and inequality this development uses. -/
def degToRad (deg : ℚ) : ℚ :=
  deg / 180

/-- The pose of the loaded device model that the load path mutates: the glTF
scene position and the `Frame` node's x rotation. -/
structure DevicePose where
  position : ℚ × ℚ × ℚ
  frameRotationX : ℚ
deriving DecidableEq, Repr

/-- Value of `targetPosition` in the device-load effect. -/
def targetPosition : ℚ × ℚ × ℚ := (0, 0, 0)

/-- Value of `startRotation.x` of the open animation: `MathUtils.degToRad(90)`. -/
def startRotationX : ℚ := degToRad 90

/-- Value of `endRotation.x` of the open animation. -/
def endRotationX : ℚ := 0

/-- Final pose of the model after `onModelLoad` settles, given the frame
rotation authored in the loaded asset.  Without reduced motion,
`playAnimation` sets the scene position to `targetPosition`, snaps the frame
rotation to `startRotationX` and spring-animates it to `endRotationX`, so the
run ends at the animation's end rotation.  With reduced motion, the load path
only sets the scene position to `targetPosition` and never writes the frame
rotation, which therefore keeps the asset's authored value. -/
def finalPose (reduceMotion : Bool) (assetFrameRotationX : ℚ) : DevicePose :=
  if reduceMotion then
    { position := targetPosition, frameRotationX := assetFrameRotationX }
  else
    { position := targetPosition, frameRotationX := endRotationX }

/-- Guard of the pointer-listener effect: `mousemove` is subscribed exactly
when the container is in the viewport and reduced motion is not requested. -/
def pointerListenerAttached (isInViewport reduceMotion : Bool) : Bool :=
  isInViewport && !reduceMotion

end Laptop

section LaptopMotionTheorems

open Laptop

/-- C9 counterexample: with reduced motion, the pointer listener is indeed
never attached, but the final model state is not always identical to the
non-reduced-motion run: for an asset whose authored frame rotation is the
closed pose `degToRad 90`, the reduced-motion run ends with the frame still
at `degToRad 90` while the animated run ends at rotation 0. -/
theorem laptop_reduced_motion_counterexample :
    pointerListenerAttached true true = false ∧
    (finalPose true startRotationX).frameRotationX = degToRad 90 ∧
    (finalPose false startRotationX).frameRotationX = 0 ∧
    ¬ finalPose true startRotationX = finalPose false startRotationX := by
  refine ⟨rfl, rfl, rfl, ?_⟩
  intro h
  have := congrArg DevicePose.frameRotationX h
  simp [finalPose, startRotationX, endRotationX, degToRad] at this

/-- C9 amended: under reduced motion the pointer-move listener is never
attached regardless of viewport visibility, and the open animation is
replaced by directly setting the target scene position; the final position
matches the non-reduced-motion run, but the frame rotation is left at the
asset's authored value rather than being written, so the two runs end in
the same state exactly when the authored frame rotation already equals the
animation's end rotation (0). -/
theorem laptop_reduced_motion_amended (isInViewport : Bool) (assetRot : ℚ) :
    pointerListenerAttached isInViewport true = false ∧
    finalPose false assetRot =
      { position := targetPosition, frameRotationX := endRotationX } ∧
    finalPose true assetRot =
      { position := targetPosition, frameRotationX := assetRot } ∧
    (finalPose true assetRot).position = (finalPose false assetRot).position ∧
    finalPose true endRotationX = finalPose false endRotationX := by
  refine ⟨?_, rfl, rfl, rfl, rfl⟩
  cases isInViewport <;> rfl

end LaptopMotionTheorems

namespace Earth

/-- State of the Earth scene that the click handler reads and writes:
the `showCutaway` flag, the visibility of the four named mesh groups, and
the camera position.  `loaded` gates the handler. -/
structure EarthSceneState where
  loaded : Bool
  showCutaway : Bool
  earthFullVisible : Bool
  earthPartialVisible : Bool
  chunkVisible : Bool
  atmosphereVisible : Bool
  cameraPosition : ℚ × ℚ × ℚ
deriving DecidableEq, Repr

/-- Embedding of `handleClick`: return unless loaded; flip `showCutaway`; then traverse
the model applying visibilities and set the camera position, both branches
chosen by the pre-click value of `showCutaway` (the closure captures the old
state value).  When the old value is true the handler applies the full-Earth
preset (EarthFull and Atmosphere visible, Chunk and EarthPartial hidden,
camera at (0, 0, 2.6)); when it is false the handler applies the cutaway
preset (EarthPartial and Chunk visible, EarthFull hidden, Atmosphere
untouched, camera at (0.37, 1.02, 1.84)). -/
def handleClick (s : EarthSceneState) : EarthSceneState :=
  if s.loaded = false then s
  else if s.showCutaway then
    { s with
      showCutaway := false
      earthFullVisible := true
      atmosphereVisible := true
      chunkVisible := false
      earthPartialVisible := false
      cameraPosition := (0, 0, 26 / 10) }
  else
    { s with
      showCutaway := true
      earthPartialVisible := true
      chunkVisible := true
      earthFullVisible := false
      cameraPosition := (37 / 100, 102 / 100, 184 / 100) }

/-- The scene state right after loading: initial visibility sets Chunk and
EarthPartial hidden and EarthFull and Atmosphere visible, the camera is at
its mount position (0, 0, 2.6), and `showCutaway` is false. -/
def earthLoadedState : EarthSceneState where
  loaded := true
  showCutaway := false
  earthFullVisible := true
  earthPartialVisible := false
  chunkVisible := false
  atmosphereVisible := true
  cameraPosition := (0, 0, 26 / 10)

/-- The cutaway state reached by clicking from `earthLoadedState`. -/
def earthCutawayState : EarthSceneState where
  loaded := true
  showCutaway := true
  earthFullVisible := false
  earthPartialVisible := true
  chunkVisible := true
  atmosphereVisible := true
  cameraPosition := (37 / 100, 102 / 100, 184 / 100)

/-- The full preset of the claim: EarthFull and Atmosphere visible, Chunk
and EarthPartial hidden, camera at the full-view position. -/
def isFullPreset (s : EarthSceneState) : Prop :=
  s.earthFullVisible = true ∧ s.atmosphereVisible = true ∧
  s.chunkVisible = false ∧ s.earthPartialVisible = false ∧
  s.cameraPosition = (0, 0, 26 / 10)

/-- The cutaway preset of the claim: EarthPartial and Chunk visible,
EarthFull hidden, camera at the cutaway position. -/
def isCutawayPreset (s : EarthSceneState) : Prop :=
  s.earthPartialVisible = true ∧ s.chunkVisible = true ∧
  s.earthFullVisible = false ∧
  s.cameraPosition = (37 / 100, 102 / 100, 184 / 100)

theorem handleClick_full : handleClick earthLoadedState = earthCutawayState := rfl

theorem handleClick_cutaway : handleClick earthCutawayState = earthLoadedState := rfl

theorem handleClick_iterate (n : ℕ) :
    handleClick^[n] earthLoadedState = earthLoadedState ∨
    handleClick^[n] earthLoadedState = earthCutawayState := by
  induction n with
  | zero => exact Or.inl rfl
  | succ n ih =>
      rw [Function.iterate_succ_apply']
      rcases ih with h | h <;> rw [h]
      · exact Or.inr handleClick_full
      · exact Or.inl handleClick_cutaway

end Earth

section EarthClickTheorems

open Earth

/-- C7: every sequence of clicks on the loaded Earth scene only ever visits
the two preset states — each click atomically swaps the whole state from the
full preset (EarthFull and Atmosphere visible, Chunk and EarthPartial hidden,
camera at (0, 0, 2.6)) to the cutaway preset (EarthPartial and Chunk visible,
EarthFull hidden, camera at (0.37, 1.02, 1.84)) and back, and no other
combination of group visibilities and camera position is ever reachable. -/
theorem earth_click_presets_c7 (n : ℕ) :
    (handleClick^[n] earthLoadedState = earthLoadedState ∨
      handleClick^[n] earthLoadedState = earthCutawayState) ∧
    handleClick earthLoadedState = earthCutawayState ∧
    handleClick earthCutawayState = earthLoadedState ∧
    isFullPreset earthLoadedState ∧
    isCutawayPreset earthCutawayState :=
  ⟨handleClick_iterate n, handleClick_full, handleClick_cutaway,
    ⟨rfl, rfl, rfl, rfl, rfl⟩, ⟨rfl, rfl, rfl, rfl⟩⟩

end EarthClickTheorems

namespace Earth

/-- Observable events of the Earth scene's load routine.  The three resolve
events are the completions of the concurrent `loadBackground`, `loadEnv` and
`loadModel` promises; the next three are the synchronous post-join work
(assigning environment maps to all materials, `scene.add(sceneModel)`,
starting the mixer clip); the last two are the mounted-guarded state
transition and callback. -/
inductive LoadEvent
  | resolveBackground
  | resolveEnv
  | resolveModel
  | installEnvMaps
  | addModelToScene
  | playMixerAnimation
  | setLoadedTrue
  | fireOnLoad
deriving DecidableEq, Repr

/-- The three concurrent initial loads issued by `handleLoad`. -/
def initialLoads : List LoadEvent :=
  [LoadEvent.resolveBackground, LoadEvent.resolveEnv, LoadEvent.resolveModel]

/-- Trace of one run of `handleLoad`: `Promise.all` joins the three loads
(whose completions arrive in some order `completionOrder`), then the
post-join scene work runs unconditionally, and only if the component is
still mounted at the join does the run set `loaded` and invoke `onLoad`. -/
def handleLoadTrace (completionOrder : List LoadEvent) (mountedAtJoin : Bool) :
    List LoadEvent :=
  completionOrder ++
    [LoadEvent.installEnvMaps, LoadEvent.addModelToScene,
     LoadEvent.playMixerAnimation] ++
    (if mountedAtJoin then [LoadEvent.setLoadedTrue, LoadEvent.fireOnLoad] else [])

/-- Whether a load event mutates the (possibly already disposed) scene graph
or GPU state: installing environment maps on materials, adding the model to
the scene, and starting the mixer animation all do. -/
def mutatesScene : LoadEvent → Bool
  | LoadEvent.installEnvMaps => true
  | LoadEvent.addModelToScene => true
  | LoadEvent.playMixerAnimation => true
  | _ => false

end Earth

section EarthLoadTheorems

open Earth

/-- C3: in every run of `handleLoad`, the trace decomposes as the join prefix
(the three resolve completions, in whatever order they arrive, each occurring
exactly once, followed by the post-join scene work) with the `loaded := true`
transition and the single `onLoad` invocation strictly after it; neither
`setLoadedTrue` nor `fireOnLoad` occurs in the prefix, and `fireOnLoad`
occurs at most once in the whole trace. -/
theorem earth_load_join_c3 (order : List LoadEvent) (m : Bool)
    (hperm : order.Perm initialLoads) :
    handleLoadTrace order m =
      (order ++ [LoadEvent.installEnvMaps, LoadEvent.addModelToScene,
        LoadEvent.playMixerAnimation]) ++
      (if m then [LoadEvent.setLoadedTrue, LoadEvent.fireOnLoad] else []) ∧
    order.count LoadEvent.resolveModel = 1 ∧
    order.count LoadEvent.resolveEnv = 1 ∧
    order.count LoadEvent.resolveBackground = 1 ∧
    (order ++ [LoadEvent.installEnvMaps, LoadEvent.addModelToScene,
      LoadEvent.playMixerAnimation]).count LoadEvent.fireOnLoad = 0 ∧
    (order ++ [LoadEvent.installEnvMaps, LoadEvent.addModelToScene,
      LoadEvent.playMixerAnimation]).count LoadEvent.setLoadedTrue = 0 ∧
    (handleLoadTrace order m).count LoadEvent.fireOnLoad ≤ 1 := by
  refine ⟨rfl, ?_, ?_, ?_, ?_, ?_, ?_⟩
  · rw [hperm.count_eq]; decide
  · rw [hperm.count_eq]; decide
  · rw [hperm.count_eq]; decide
  · rw [List.count_append, hperm.count_eq]; decide
  · rw [List.count_append, hperm.count_eq]; decide
  · unfold handleLoadTrace
    rw [List.count_append, List.count_append, hperm.count_eq]
    cases m <;> decide

end EarthLoadTheorems

section EarthLoadWitnesses

open Earth

/-- Witness for C3 at the concrete completion order background, environment,
model, with the component still mounted at the join. -/
theorem earth_load_join_c3_witness :
    handleLoadTrace initialLoads true =
      (initialLoads ++ [LoadEvent.installEnvMaps, LoadEvent.addModelToScene,
        LoadEvent.playMixerAnimation]) ++
      (if true then [LoadEvent.setLoadedTrue, LoadEvent.fireOnLoad] else []) ∧
    initialLoads.count LoadEvent.resolveModel = 1 ∧
    initialLoads.count LoadEvent.resolveEnv = 1 ∧
    initialLoads.count LoadEvent.resolveBackground = 1 ∧
    (initialLoads ++ [LoadEvent.installEnvMaps, LoadEvent.addModelToScene,
      LoadEvent.playMixerAnimation]).count LoadEvent.fireOnLoad = 0 ∧
    (initialLoads ++ [LoadEvent.installEnvMaps, LoadEvent.addModelToScene,
      LoadEvent.playMixerAnimation]).count LoadEvent.setLoadedTrue = 0 ∧
    (handleLoadTrace initialLoads true).count LoadEvent.fireOnLoad ≤ 1 :=
  earth_load_join_c3 initialLoads true (List.Perm.refl _)

/-- C4 counterexample: a load that joins after unmount is not a no-op — the
trace still contains the scene-mutating steps (three of them: installing the
environment maps, adding the model to the disposed scene, and starting the
mixer animation). -/
theorem earth_unmounted_load_counterexample :
    LoadEvent.addModelToScene ∈ handleLoadTrace initialLoads false ∧
    mutatesScene LoadEvent.addModelToScene = true ∧
    (handleLoadTrace initialLoads false).countP (fun e => mutatesScene e) = 3 := by
  refine ⟨?_, rfl, ?_⟩ <;> decide

/-- C4 amended: when the component is unmounted before the loads resolve, the
eventual completion neither sets `loaded` nor fires `onLoad` (so the
loaded-gated render effect never schedules a frame), but the mounted guard
covers only those two steps: the completion still performs the three
scene-graph mutations (environment-map installation, adding the model to the
disposed scene, starting the mixer animation). -/
theorem earth_unmounted_load_guard (order : List LoadEvent)
    (hperm : order.Perm initialLoads) :
    handleLoadTrace order false =
      order ++ [LoadEvent.installEnvMaps, LoadEvent.addModelToScene,
        LoadEvent.playMixerAnimation] ∧
    (handleLoadTrace order false).count LoadEvent.setLoadedTrue = 0 ∧
    (handleLoadTrace order false).count LoadEvent.fireOnLoad = 0 ∧
    (handleLoadTrace order false).countP (fun e => mutatesScene e) = 3 := by
  refine ⟨by simp [handleLoadTrace], ?_, ?_, ?_⟩ <;>
    unfold handleLoadTrace <;>
    simp only [if_neg Bool.false_ne_true, List.append_nil, List.count_append,
      List.countP_append, hperm.count_eq, hperm.countP_eq] <;>
    decide

/-- Witness for the amended C4 theorem at the concrete completion order
background, environment, model. -/
theorem earth_unmounted_load_guard_witness :
    handleLoadTrace initialLoads false =
      initialLoads ++ [LoadEvent.installEnvMaps, LoadEvent.addModelToScene,
        LoadEvent.playMixerAnimation] ∧
    (handleLoadTrace initialLoads false).count LoadEvent.setLoadedTrue = 0 ∧
    (handleLoadTrace initialLoads false).count LoadEvent.fireOnLoad = 0 ∧
    (handleLoadTrace initialLoads false).countP (fun e => mutatesScene e) = 3 :=
  earth_unmounted_load_guard initialLoads (List.Perm.refl _)

end EarthLoadWitnesses

namespace Earth

/-- Scheduling-relevant state of the Earth scene's render loop: the `loaded`
and `inViewport` flags the frame callback reads, the number of frame
callbacks currently scheduled and not yet fired, and whether the id stored in
`animationFrame.current` belongs to a still-pending callback (so that
`cancelAnimationFrame(animationFrame.current)` actually removes one). -/
structure EarthLoopState where
  loaded : Bool
  inViewport : Bool
  pending : ℕ
  refLive : Bool
deriving DecidableEq, Repr

/-- Embedding of `cancelAnimationFrame(animationFrame.current)`: removes the stored
callback exactly when it is still pending. -/
def cancelFrame (s : EarthLoopState) : EarthLoopState :=
  if s.refLive then { s with pending := s.pending - 1, refLive := false } else s

/-- Embedding of `animationFrame.current = requestAnimationFrame(renderFrame)`: schedules
one new callback and stores its id. -/
def scheduleFrame (s : EarthLoopState) : EarthLoopState :=
  { s with pending := s.pending + 1, refLive := true }

/-- The body of the Earth scene's `renderFrame` callback: when the scene is
out of the viewport or not loaded it cancels the stored frame and returns;
otherwise it schedules the next frame and renders. -/
def renderFrame (s : EarthLoopState) : EarthLoopState :=
  if !s.inViewport || !s.loaded then cancelFrame s
  else scheduleFrame s

/-- One run of the render-loop effect after `loaded`/`inViewport` change to
`l`/`v`: the previous effect's cleanup cancels the scheduled frame, then the
body invokes `renderFrame` exactly when both flags hold. -/
def renderLoopEffect (l v : Bool) (s : EarthLoopState) : EarthLoopState :=
  let s1 := cancelFrame { s with loaded := l, inViewport := v }
  if l && v then renderFrame s1 else s1

/-- A scheduled frame callback fires: it leaves the pending set (its id is
still the stored one, now dead) and then its body runs. -/
def fireFrame (s : EarthLoopState) : EarthLoopState :=
  renderFrame { s with pending := s.pending - 1, refLive := false }

/-- The state right after mount: nothing loaded, not in viewport, no frame
scheduled. -/
def initialLoopState : EarthLoopState where
  loaded := false
  inViewport := false
  pending := 0
  refLive := false

/-- Transitions of the render-loop scheduler: an effect run after a
`loaded`/`inViewport` change, or the firing of the (sole) pending frame
callback. -/
inductive LoopStep : EarthLoopState → EarthLoopState → Prop
  | effect (l v : Bool) (s : EarthLoopState) : LoopStep s (renderLoopEffect l v s)
  | fire (s : EarthLoopState) (h : s.refLive = true) : LoopStep s (fireFrame s)

/-- States reachable from the mount state by scheduler transitions. -/
inductive LoopReachable : EarthLoopState → Prop
  | init : LoopReachable initialLoopState
  | step (s t : EarthLoopState) (hs : LoopReachable s) (st : LoopStep s t) :
      LoopReachable t

/-- Inductive invariant of the scheduler: the pending count mirrors the
liveness of the stored callback id (hence is never above one), and no frame
stays scheduled while the scene is out of the viewport or not loaded. -/
def LoopInv (s : EarthLoopState) : Prop :=
  s.pending = (if s.refLive then 1 else 0) ∧
  (s.inViewport = false → s.pending = 0) ∧
  (s.loaded = false → s.pending = 0)

theorem loopStep_inv {s t : EarthLoopState} (hs : LoopInv s) (st : LoopStep s t) :
    LoopInv t := by
  obtain ⟨l0, v0, p, r⟩ := s
  cases st with
  | effect l v s =>
      cases l <;> cases v <;> cases r <;>
        simp_all [LoopInv, renderLoopEffect, renderFrame, cancelFrame,
          scheduleFrame]
  | fire s h =>
      cases l0 <;> cases v0 <;> cases r <;>
        simp_all [LoopInv, fireFrame, renderFrame, cancelFrame, scheduleFrame]

theorem loopReachable_inv {s : EarthLoopState} (h : LoopReachable s) : LoopInv s := by
  induction h with
  | init => exact ⟨rfl, fun _ => rfl, fun _ => rfl⟩
  | step s t hs st ih => exact loopStep_inv ih st

end Earth

section EarthLoopTheorems

open Earth

/-- C6: in every reachable scheduler state in which the scene is out of the
viewport, no frame callback remains scheduled (and at most one is ever
scheduled in any reachable state); an effect run that toggles visibility to
true (with `loaded` becoming true) leaves exactly one pending callback,
re-running that effect still leaves exactly one (no duplicate scheduling on
repeated toggles), and an effect run that toggles visibility back to false
cancels it, leaving none. -/
theorem earth_render_loop_c6 (s : EarthLoopState) (hr : LoopReachable s)
    (hv : s.inViewport = false) :
    s.pending = 0 ∧
    s.pending ≤ 1 ∧
    (renderLoopEffect true true s).pending = 1 ∧
    (renderLoopEffect true true (renderLoopEffect true true s)).pending = 1 ∧
    (renderLoopEffect true false (renderLoopEffect true true s)).pending = 0 := by
  have inv := loopReachable_inv hr
  obtain ⟨l0, v0, p, r⟩ := s
  simp only [EarthLoopState.inViewport] at hv
  subst hv
  have hp : p = 0 := inv.2.1 rfl
  subst hp
  have hrf : r = false := by
    rcases inv with ⟨h1, -, -⟩
    cases r
    · rfl
    · simp [EarthLoopState.pending, EarthLoopState.refLive] at h1
  subst hrf
  cases l0 <;>
    simp [renderLoopEffect, renderFrame, cancelFrame, scheduleFrame]

/-- Witness for C6 at the mount state, which is trivially reachable and out
of the viewport. -/
theorem earth_render_loop_c6_witness :
    initialLoopState.pending = 0 ∧
    initialLoopState.pending ≤ 1 ∧
    (renderLoopEffect true true initialLoopState).pending = 1 ∧
    (renderLoopEffect true true
      (renderLoopEffect true true initialLoopState)).pending = 1 ∧
    (renderLoopEffect true false
      (renderLoopEffect true true initialLoopState)).pending = 0 :=
  earth_render_loop_c6 initialLoopState LoopReachable.init rfl

end EarthLoopTheorems
